import Mathlib

/-!
Verification development for the MT5 Entry-setup Detector pattern core.

Shallow embedding of the detection logic of the repository:
prices are rationals, candle times are integers, candle series are lists
ordered as the data frames are (oldest first, newest last).  Stateful code
(the alert cache) is embedded as explicit state passing; file-system side
effects are embedded over an explicit list of file records.
-/

/-- A single OHLC bar, as a row of the rates data frame
(`time`, `open`, `high`, `low`, `close`). -/
structure Candle where
  time : Int
  «open» : ℚ
  high : ℚ
  low : ℚ
  close : ℚ
deriving DecidableEq, Repr

/-- Default row used for positional access; the scan loops below only index
inside the frame, so the default is never the value actually read there. -/
def dummyCandle : Candle := ⟨0, 0, 0, 0, 0⟩

/-- `df.iloc[i]` positional access on the embedded frame. -/
def iloc (df : List Candle) (i : Nat) : Candle := df.getD i dummyCandle

/-- Swing-point record built by `FVGFinder.find_swing`:
`{"type", "time", "price", "index"}`. -/
structure Swing where
  type : String
  time : Int
  price : ℚ
  index : Nat
deriving DecidableEq, Repr

/-- Swing-high test of `FVGFinder.find_swing` at pivot index `i`
(`src/core/fvg_finder.py`, lines 40-46). -/
def is_swing_high (df : List Candle) (i : Nat) : Prop :=
  let curr_high := (iloc df (i + 1)).high
  let pivot_high := (iloc df i).high
  let prev_high := (iloc df (i - 1)).high
  let prev2_high := (iloc df (i - 2)).high
  (pivot_high > curr_high ∧ pivot_high > prev_high) ∨
    (pivot_high > curr_high ∧ pivot_high = prev_high ∧ pivot_high > prev2_high)

/-- Swing-low test of `FVGFinder.find_swing` at pivot index `i`
(`src/core/fvg_finder.py`, lines 57-63). -/
def is_swing_low (df : List Candle) (i : Nat) : Prop :=
  let curr_low := (iloc df (i + 1)).low
  let pivot_low := (iloc df i).low
  let prev_low := (iloc df (i - 1)).low
  let prev2_low := (iloc df (i - 2)).low
  (pivot_low < curr_low ∧ pivot_low < prev_low) ∨
    (pivot_low < curr_low ∧ pivot_low = prev_low ∧ pivot_low < prev2_low)

instance (df : List Candle) (i : Nat) : Decidable (is_swing_high df i) := by
  unfold is_swing_high; infer_instance

instance (df : List Candle) (i : Nat) : Decidable (is_swing_low df i) := by
  unfold is_swing_low; infer_instance

/-- The record `find_swing` returns when index `i` qualifies: the swing-high
branch is tested first, so a pivot that is both comes back as a high. -/
def swingAt (df : List Candle) (i : Nat) : Swing :=
  if is_swing_high df i then
    ⟨"high", (iloc df i).time, (iloc df i).high, i⟩
  else
    ⟨"low", (iloc df i).time, (iloc df i).low, i⟩

/-- Index `i` qualifies as a pivot (high or low) for `find_swing`. -/
def swing_qualifies (df : List Candle) (i : Nat) : Prop :=
  is_swing_high df i ∨ is_swing_low df i

instance (df : List Candle) (i : Nat) : Decidable (swing_qualifies df i) := by
  unfold swing_qualifies; infer_instance

/-- The backward scan of `FVGFinder.find_swing`: Python's
`for i in range(len(df) - 2, 2, -1)`, checking each index and returning the
first qualifying pivot; indices `2, 1, 0` are outside the loop range. -/
def find_swing_from (df : List Candle) : Nat → Option Swing
  | 0 => none
  | 1 => none
  | 2 => none
  | (i + 3) =>
    if swing_qualifies df (i + 3) then some (swingAt df (i + 3))
    else find_swing_from df (i + 2)

/-- `FVGFinder.find_swing` (`src/core/fvg_finder.py`, lines 33-73): series of
fewer than 4 bars have no swing; otherwise scan from `len - 2` down to 3. -/
def find_swing (df : List Candle) : Option Swing :=
  if df.length < 4 then none
  else find_swing_from df (df.length - 2)

/-- Per-candle close status recorded inside an FVG
(`candle_status` entries of `find_fvg_before_swing`). -/
structure CandleInfo where
  time : Int
  closed : Bool
deriving DecidableEq, Repr

/-- The `candle_status` sub-record of an FVG. -/
structure CandleStatus where
  candle1 : CandleInfo
  candle2 : CandleInfo
  candle3 : CandleInfo
deriving DecidableEq, Repr

/-- Fair-value-gap record built by `FVGFinder.find_fvg_before_swing`. -/
structure FVG where
  type : String
  top : ℚ
  bottom : ℚ
  size : ℚ
  time : Int
  is_confirmed : Bool
  candle_status : CandleStatus
deriving DecidableEq, Repr

/-- The bearish-gap condition of `find_fvg_before_swing` at triple start `i`:
`high(c3) < low(c1)` and gap `low(c1) - high(c3)` at least `min_size`
(`src/core/fvg_finder.py`, lines 92-94). -/
def bearish_gap_ok (min_size : ℚ) (df : List Candle) (i : Nat) : Prop :=
  (iloc df (i + 2)).high < (iloc df i).low ∧
    (iloc df i).low - (iloc df (i + 2)).high ≥ min_size

/-- The bullish-gap condition of `find_fvg_before_swing` at triple start `i`:
`low(c3) > high(c1)` and gap `low(c3) - high(c1)` at least `min_size`
(`src/core/fvg_finder.py`, lines 110-112). -/
def bullish_gap_ok (min_size : ℚ) (df : List Candle) (i : Nat) : Prop :=
  (iloc df (i + 2)).low > (iloc df i).high ∧
    (iloc df (i + 2)).low - (iloc df i).high ≥ min_size

instance (min_size : ℚ) (df : List Candle) (i : Nat) :
    Decidable (bearish_gap_ok min_size df i) := by
  unfold bearish_gap_ok; infer_instance

instance (min_size : ℚ) (df : List Candle) (i : Nat) :
    Decidable (bullish_gap_ok min_size df i) := by
  unfold bullish_gap_ok; infer_instance

/-- The `candle_status` record for the triple starting at `i`, given the
abstract candle-close oracle `closed` (embedding
`time_sync.is_candle_closed(t, timeframe)` applied to each candle's time). -/
def tripleStatus (closed : Int → Bool) (df : List Candle) (i : Nat) : CandleStatus :=
  ⟨⟨(iloc df i).time, closed (iloc df i).time⟩,
   ⟨(iloc df (i + 1)).time, closed (iloc df (i + 1)).time⟩,
   ⟨(iloc df (i + 2)).time, closed (iloc df (i + 2)).time⟩⟩

/-- The body of one iteration of `find_fvg_before_swing`'s loop at index `i`:
check the bearish gap first, then the bullish gap, each against `min_size`;
`none` when neither triple condition fires
(`src/core/fvg_finder.py`, lines 80-125). -/
def fvg_check (closed : Int → Bool) (min_size : ℚ) (df : List Candle) (i : Nat) :
    Option FVG :=
  let status := tripleStatus closed df i
  let all_closed := status.candle1.closed && status.candle2.closed && status.candle3.closed
  if bearish_gap_ok min_size df i then
    some ⟨"bearish", (iloc df i).low, (iloc df (i + 2)).high,
          (iloc df i).low - (iloc df (i + 2)).high,
          (iloc df (i + 2)).time, all_closed, status⟩
  else if bullish_gap_ok min_size df i then
    some ⟨"bullish", (iloc df (i + 2)).low, (iloc df i).high,
          (iloc df (i + 2)).low - (iloc df i).high,
          (iloc df (i + 2)).time, all_closed, status⟩
  else none

/-- The backward scan of `find_fvg_before_swing`: Python's
`for i in range(len(df) - 3, swing_index, -1)`, stopping (exclusive) at the
swing index and returning the first qualifying gap. -/
def find_fvg_from (closed : Int → Bool) (min_size : ℚ) (df : List Candle)
    (swing_index : Nat) : Nat → Option FVG
  | 0 => none
  | (i + 1) =>
    if i + 1 ≤ swing_index then none
    else
      match fvg_check closed min_size df (i + 1) with
      | some fvg => some fvg
      | none => find_fvg_from closed min_size df swing_index i

/-- `FVGFinder.find_fvg_before_swing` (`src/core/fvg_finder.py`, lines 75-127),
with the symbol's resolved minimum gap size `min_size = _get_min_size(symbol)`
and the candle-close oracle `closed` abstracting
`time_sync.is_candle_closed(·, timeframe)`. -/
def find_fvg_before_swing (closed : Int → Bool) (min_size : ℚ) (df : List Candle)
    (swing_index : Nat) : Option FVG :=
  find_fvg_from closed min_size df swing_index (df.length - 3)

/-- `FVGFinder.is_fvg_mitigated` (`src/core/fvg_finder.py`, lines 129-140):
restrict to candles strictly after `fvg.time`, then ask whether any low pierces
the top (bullish) or any high pierces the bottom (bearish). -/
def is_fvg_mitigated (df : List Candle) (fvg : FVG) : Bool :=
  let post_fvg_df := df.filter (fun c => fvg.time < c.time)
  if fvg.type = "bullish" then
    post_fvg_df.any (fun c => c.low < fvg.top)
  else if fvg.type = "bearish" then
    post_fvg_df.any (fun c => fvg.bottom < c.high)
  else false

/-- 2CR pattern record built by `TwoCandleRejection.find_2cr_pattern`
(`src/two_candle_rejection.py`, lines 92-119). -/
structure TwoCR where
  type : String
  rejection_type : String
  first_candle : Candle
  second_candle : Candle
  has_follow_through : Bool
  follow_through_candle : Option Candle
  fvg_mitigation_time : Int
  is_ugly : Bool
deriving DecidableEq, Repr

/-- `TwoCandleRejection._check_first_candle_rejection`
(`src/two_candle_rejection.py`, lines 123-146). -/
def _check_first_candle_rejection (candle : Candle) (fvg_type : String)
    (fvg_top fvg_bottom : ℚ) : Bool :=
  if fvg_type = "bullish" then
    let body_size := |candle.close - candle.«open»|
    let lower_wick :=
      if candle.«open» > candle.low then candle.«open» - candle.low
      else candle.close - candle.low
    let is_up_candle := decide (candle.close > candle.«open»)
    is_up_candle && decide (lower_wick > body_size * (7 / 10)) &&
      decide (candle.low ≤ fvg_top)
  else if fvg_type = "bearish" then
    let body_size := |candle.close - candle.«open»|
    let upper_wick :=
      if candle.«open» < candle.high then candle.high - candle.«open»
      else candle.high - candle.close
    let is_down_candle := decide (candle.close < candle.«open»)
    is_down_candle && decide (upper_wick > body_size * (7 / 10)) &&
      decide (candle.high ≥ fvg_bottom)
  else false

/-- `TwoCandleRejection._check_second_candle_rejection`
(`src/two_candle_rejection.py`, lines 148-174); as in the source, the
`prev_candle` argument is received but not read by the body. -/
def _check_second_candle_rejection (prev_candle first_candle second_candle : Candle)
    (fvg_type : String) : Bool :=
  if fvg_type = "bullish" then
    let sweep_occurred := decide (second_candle.low < first_candle.low)
    let is_up_candle := decide (second_candle.close > second_candle.«open»)
    let body_size := |second_candle.close - second_candle.«open»|
    let lower_wick :=
      if second_candle.«open» > second_candle.low then
        second_candle.«open» - second_candle.low
      else second_candle.close - second_candle.low
    sweep_occurred && is_up_candle && decide (lower_wick > body_size * (1 / 2))
  else if fvg_type = "bearish" then
    let sweep_occurred := decide (second_candle.high > first_candle.high)
    let is_down_candle := decide (second_candle.close < second_candle.«open»)
    let body_size := |second_candle.close - second_candle.«open»|
    let upper_wick :=
      if second_candle.«open» < second_candle.high then
        second_candle.high - second_candle.«open»
      else second_candle.high - second_candle.close
    sweep_occurred && is_down_candle && decide (upper_wick > body_size * (1 / 2))
  else false

/-- `TwoCandleRejection._check_follow_through`
(`src/two_candle_rejection.py`, lines 176-201); the second component embeds
the details dictionary returned alongside the flag. -/
def _check_follow_through (reject_candle next_candle : Candle) (fvg_type : String) :
    Bool × List (String × Bool) :=
  if fvg_type = "bullish" then
    let is_up_candle := decide (next_candle.close > next_candle.«open»)
    let is_expansion := decide (next_candle.high > reject_candle.high)
    (is_up_candle && is_expansion,
     [("is_up_candle", is_up_candle), ("is_expansion", is_expansion)])
  else if fvg_type = "bearish" then
    let is_down_candle := decide (next_candle.close < next_candle.«open»)
    let is_expansion := decide (next_candle.low < reject_candle.low)
    (is_down_candle && is_expansion,
     [("is_down_candle", is_down_candle), ("is_expansion", is_expansion)])
  else (false, [])

/-- `TwoCandleRejection._is_ugly_rejection`
(`src/two_candle_rejection.py`, lines 203-226); as in the source, only
`candle2` and `candle3` are read. -/
def _is_ugly_rejection (candle1 candle2 candle3 : Candle) (fvg_type : String) : Bool :=
  if fvg_type = "bullish" then
    let body_size := |candle3.close - candle3.«open»|
    let lower_wick :=
      if candle3.«open» > candle3.low then candle3.«open» - candle3.low
      else candle3.close - candle3.low
    decide (lower_wick > body_size * (3 / 2)) && decide (candle3.close < candle2.high)
  else if fvg_type = "bearish" then
    let body_size := |candle3.close - candle3.«open»|
    let upper_wick :=
      if candle3.«open» < candle3.high then candle3.high - candle3.«open»
      else candle3.high - candle3.close
    decide (upper_wick > body_size * (3 / 2)) && decide (candle3.close > candle2.low)
  else false

/-- The mitigation scan of `find_2cr_pattern` (`src/two_candle_rejection.py`,
lines 44-52): index of the first post-FVG candle whose low reaches (≤) the
top for a bullish gap, or whose high reaches (≥) the bottom for a bearish
gap; note the non-strict comparison, unlike `is_fvg_mitigated`. -/
def mitigation_scan (post_fvg_df : List Candle) (fvg_type : String)
    (fvg_top fvg_bottom : ℚ) : Option Nat :=
  post_fvg_df.findIdx? (fun candle =>
    if fvg_type = "bullish" then decide (candle.low ≤ fvg_top)
    else if fvg_type = "bearish" then decide (candle.high ≥ fvg_bottom)
    else false)

/-- The pattern loop of `find_2cr_pattern` (`src/two_candle_rejection.py`,
lines 64-121): `for i in range(len(post_mitigation_df) - 2)`; in that range
`i + 2` is always a valid position, so the third candle always exists. -/
def find_2cr_loop (post_mitigation_df : List Candle) (fvg_type : String)
    (fvg_top fvg_bottom : ℚ) (mitigation_time : Int) (i : Nat) : Option TwoCR :=
  if h : i + 2 < post_mitigation_df.length then
    let candle1 := iloc post_mitigation_df i
    let candle2 := iloc post_mitigation_df (i + 1)
    let candle3 := iloc post_mitigation_df (i + 2)
    let first_candle_rejection :=
      _check_first_candle_rejection candle1 fvg_type fvg_top fvg_bottom
    let second_candle_rejection :=
      if !first_candle_rejection && decide (0 < i) then
        _check_second_candle_rejection (iloc post_mitigation_df (i - 1))
          candle1 candle2 fvg_type
      else false
    if first_candle_rejection || second_candle_rejection then
      let has_follow_through := ( _check_follow_through candle2 candle3 fvg_type).1
      let follow_through_candle := if has_follow_through then some candle3 else none
      some ⟨fvg_type,
            if first_candle_rejection then "first_candle" else "second_candle",
            candle1, candle2, has_follow_through, follow_through_candle,
            mitigation_time, _is_ugly_rejection candle1 candle2 candle3 fvg_type⟩
    else find_2cr_loop post_mitigation_df fvg_type fvg_top fvg_bottom mitigation_time (i + 1)
  else none
termination_by post_mitigation_df.length - i
decreasing_by omega

/-- `TwoCandleRejection.find_2cr_pattern` (`src/two_candle_rejection.py`,
lines 18-121). -/
def find_2cr_pattern (df : List Candle) (fvg : FVG) : Option TwoCR :=
  if df.length < 3 then none
  else
    let post_fvg_df := df.filter (fun c => fvg.time < c.time)
    if post_fvg_df.length < 3 then none
    else
      match mitigation_scan post_fvg_df fvg.type fvg.top fvg.bottom with
      | none => none
      | some mitigation_idx =>
        let post_mitigation_df := post_fvg_df.drop mitigation_idx
        if post_mitigation_df.length < 3 then none
        else
          find_2cr_loop post_mitigation_df fvg.type fvg.top fvg.bottom
            (iloc post_fvg_df mitigation_idx).time 0

/-- Trade-metrics record built by `PDRays.calculate_risk_reward`
(`src/core/pd_rays.py`, lines 299-307). -/
structure RiskReward where
  entry : ℚ
  target : ℚ
  stop_loss : ℚ
  risk : ℚ
  reward : ℚ
  risk_reward_ratio : ℚ
  is_favorable : Bool
deriving DecidableEq, Repr

/-- `PDRays.calculate_risk_reward` (`src/core/pd_rays.py`, lines 274-307);
a zero (falsy) price returns the `missing_parameters` status, embedded as
`none`. -/
def calculate_risk_reward (entry target stop_loss : ℚ) : Option RiskReward :=
  if entry = 0 ∨ target = 0 ∨ stop_loss = 0 then none
  else
    let risk := |entry - stop_loss|
    let reward := |entry - target|
    let ratio := if risk = 0 then 0 else reward / risk
    some ⟨entry, target, stop_loss, risk, reward, ratio, decide (ratio ≥ 2)⟩

/-- A `datetime` value as the cache's time source returns it: `date` is the
calendar date (as a day ordinal, compared like Python `date` values) and
`sec` the absolute epoch second used for `total_seconds` differences. -/
structure PyDateTime where
  date : Int
  sec : Int
deriving DecidableEq, Repr

/-- In-memory state of `AlertCache` (`src/alert_cache_handler.py`):
the stored current date, the alert dictionary (fingerprint key → timestamp,
in insertion order, as a Python dict iterates), and `last_cleanup`. -/
structure AlertCache where
  current_date : Int
  alerts : List (String × PyDateTime)
  last_cleanup : PyDateTime
deriving DecidableEq, Repr

/-- Python `key in dict` on the embedded alert dictionary. -/
def dictContains (alerts : List (String × PyDateTime)) (key : String) : Bool :=
  alerts.any (fun p => p.1 == key)

/-- Python `dict[key] = value`: overwrite in place when the key exists,
append otherwise. -/
def dictInsert (alerts : List (String × PyDateTime)) (key : String)
    (v : PyDateTime) : List (String × PyDateTime) :=
  if dictContains alerts key then
    alerts.map (fun p => if p.1 == key then (key, v) else p)
  else alerts ++ [(key, v)]

/-- `AlertCache._generate_alert_key` (`src/alert_cache_handler.py`, lines
85-87). -/
def _generate_alert_key (symbol timeframe fvg_type fvg_time : String) : String :=
  symbol ++ "|" ++ timeframe ++ "|" ++ fvg_type ++ "|" ++ fvg_time

/-- `AlertCache._check_date_change` (`src/alert_cache_handler.py`, lines
72-83): when the time source's date is strictly past the stored date, rotate
to the new day with an empty alert store (the file-level effects
`_save_cache` and `_cleanup_old_files` touch only the disk, not this state).
Returns the updated state and the rotation flag. -/
def _check_date_change (cache : AlertCache) (now : PyDateTime) :
    AlertCache × Bool :=
  if cache.current_date < now.date then
    ({ cache with current_date := now.date, alerts := [] }, true)
  else (cache, false)

/-- `AlertCache.is_duplicate` (`src/alert_cache_handler.py`, lines 89-93):
run the date-change check, then test fingerprint membership.  Returns the
updated state and the membership answer. -/
def is_duplicate (cache : AlertCache) (now : PyDateTime)
    (symbol timeframe fvg_type fvg_time : String) : AlertCache × Bool :=
  let cache1 := (_check_date_change cache now).1
  let alert_key := _generate_alert_key symbol timeframe fvg_type fvg_time
  (cache1, dictContains cache1.alerts alert_key)

/-- `AlertCache.add_alert` (`src/alert_cache_handler.py`, lines 95-105):
record the fingerprint with the current timestamp; the hourly branch runs the
file-level `_manage_cache_size` and refreshes `last_cleanup`. -/
def add_alert (cache : AlertCache) (now : PyDateTime)
    (symbol timeframe fvg_type fvg_time : String) : AlertCache :=
  let alert_key := _generate_alert_key symbol timeframe fvg_type fvg_time
  let cache1 := { cache with alerts := dictInsert cache.alerts alert_key now }
  if now.sec - cache1.last_cleanup.sec > 3600 then
    { cache1 with last_cleanup := now }
  else cache1

/-- An on-disk per-day cache file as `_manage_cache_size` sees it: its path
name, its `st_mtime` and its `st_size`. -/
structure CacheFile where
  name : String
  mtime : Int
  size : Nat
deriving DecidableEq, Repr

/-- `AlertCache.MAX_CACHE_SIZE` (`src/alert_cache_handler.py`, line 19). -/
def MAX_CACHE_SIZE : Nat := 100 * 1024 * 1024

/-- Insert a file into a list sorted by ascending `st_mtime`, keeping equal
keys in their original order as Python's stable `sorted` does. -/
def insertByMtime (f : CacheFile) : List CacheFile → List CacheFile
  | [] => [f]
  | g :: gs => if f.mtime ≤ g.mtime then f :: g :: gs else g :: insertByMtime f gs

/-- `sorted(files, key=lambda x: x.stat().st_mtime)`. -/
def sortByMtime : List CacheFile → List CacheFile
  | [] => []
  | f :: fs => insertByMtime f (sortByMtime fs)

/-- The deletion loop of `_manage_cache_size` (`src/alert_cache_handler.py`,
lines 134-141): walk the mtime-sorted non-current files accumulating their
sizes, unlinking each file once the running total has passed
`MAX_CACHE_SIZE`.  Returns the names of the files deleted. -/
def _manage_cache_size_loop (total_size : Nat) : List CacheFile → List String
  | [] => []
  | f :: rest =>
    let total := total_size + f.size
    if total > MAX_CACHE_SIZE then f.name :: _manage_cache_size_loop total rest
    else _manage_cache_size_loop total rest

/-- `AlertCache._manage_cache_size` (`src/alert_cache_handler.py`, lines
120-143), over an explicit directory listing: sort the day files by
modification time, set the active day's file (`cache_file`) aside, and run
the deletion loop over the rest.  Returns the names of the deleted files. -/
def _manage_cache_size (cache_file : String) (files : List CacheFile) :
    List String :=
  let cache_files := sortByMtime files
  let old_files := cache_files.filter (fun f => f.name != cache_file)
  _manage_cache_size_loop 0 old_files

/-- C3: `is_fvg_mitigated` is true exactly when some candle strictly after
`fvg.time` has its low strictly below the top (bullish) or its high strictly
above the bottom (bearish); boundary touches (low = top, high = bottom) do
not mitigate, and any other `fvg.type` yields false. -/
theorem is_fvg_mitigated_iff (df : List Candle) (fvg : FVG) :
    is_fvg_mitigated df fvg = true ↔
      ∃ c ∈ df, fvg.time < c.time ∧
        ((fvg.type = "bullish" ∧ c.low < fvg.top) ∨
         (fvg.type = "bearish" ∧ fvg.bottom < c.high)) := by
  have hne : ("bullish" : String) ≠ "bearish" := by decide
  unfold is_fvg_mitigated
  by_cases hb : fvg.type = "bullish"
  · simp [hb, hne, List.any_eq_true, List.mem_filter, and_assoc]
  · by_cases hr : fvg.type = "bearish"
    · simp [hb, hr, List.any_eq_true, List.mem_filter, and_assoc]
    · simp [hb, hr]

/-- C4: mitigation is monotone under extending the series forward in time —
once `is_fvg_mitigated` is true on `df`, it stays true on `df ++ ext` when
every appended candle is later than every candle of `df`. -/
theorem is_fvg_mitigated_monotone (df ext : List Candle) (fvg : FVG)
    (hlater : ∀ c ∈ ext, ∀ c' ∈ df, c'.time < c.time)
    (h : is_fvg_mitigated df fvg = true) :
    is_fvg_mitigated (df ++ ext) fvg = true := by
  unfold is_fvg_mitigated at h ⊢
  split_ifs at h ⊢ with h1 h2
  · rw [List.filter_append, List.any_append, h, Bool.true_or]
  · rw [List.filter_append, List.any_append, h, Bool.true_or]

/-- Concrete bullish FVG used in cache-free witnesses. -/
def fvgW : FVG := ⟨"bullish", 10, 9, 1, 0, true, ⟨⟨-2, true⟩, ⟨-1, true⟩, ⟨0, true⟩⟩⟩

/-- Concrete one-candle series whose candle pierces `fvgW`'s top. -/
def dfW : List Candle := [⟨1, 11, 11, 9, 10⟩]

/-- Concrete later extension of `dfW`. -/
def extW : List Candle := [⟨2, 12, 13, 11, 12⟩]

/-- Witness for C4 at a concrete series, FVG and extension. -/
theorem is_fvg_mitigated_monotone_witness :
    is_fvg_mitigated (dfW ++ extW) fvgW = true :=
  is_fvg_mitigated_monotone dfW extW fvgW (by decide) (by decide)

/-- C9: for nonzero entry, target and stop-loss, `calculate_risk_reward`
succeeds; zero risk gives ratio 0 and not favorable, and for nonzero risk the
result is favorable exactly when reward / risk is at least 2, threshold
inclusive. -/
theorem calculate_risk_reward_spec (entry target stop_loss : ℚ)
    (he : entry ≠ 0) (ht : target ≠ 0) (hs : stop_loss ≠ 0) :
    ∃ r, calculate_risk_reward entry target stop_loss = some r ∧
      (|entry - stop_loss| = 0 →
        r.risk_reward_ratio = 0 ∧ r.is_favorable = false) ∧
      (|entry - stop_loss| ≠ 0 →
        r.risk_reward_ratio = |entry - target| / |entry - stop_loss| ∧
        (r.is_favorable = true ↔ |entry - target| / |entry - stop_loss| ≥ 2)) := by
  unfold calculate_risk_reward
  rw [if_neg (by push_neg; exact ⟨he, ht, hs⟩)]
  refine ⟨_, rfl, ?_, ?_⟩
  · intro hrisk
    refine ⟨?_, ?_⟩ <;> simp [hrisk]
  · intro hrisk
    refine ⟨?_, ?_⟩ <;> simp [hrisk]

/-- Witness for C9 at entry 1, target 3, stop-loss 2: ratio exactly 2. -/
theorem calculate_risk_reward_spec_witness :
    ∃ r, calculate_risk_reward 1 3 2 = some r ∧
      (|(1 : ℚ) - 2| = 0 →
        r.risk_reward_ratio = 0 ∧ r.is_favorable = false) ∧
      (|(1 : ℚ) - 2| ≠ 0 →
        r.risk_reward_ratio = |(1 : ℚ) - 3| / |(1 : ℚ) - 2| ∧
        (r.is_favorable = true ↔ |(1 : ℚ) - 3| / |(1 : ℚ) - 2| ≥ 2)) :=
  calculate_risk_reward_spec 1 3 2 (by decide) (by decide) (by decide)

/-- Bullish FVG (top 10, bottom 9, formed at time 0) for the boundary
comparison between the 2CR detector and `is_fvg_mitigated`. -/
def fvg10 : FVG := ⟨"bullish", 10, 9, 1, 0, true, ⟨⟨-2, true⟩, ⟨-1, true⟩, ⟨0, true⟩⟩⟩

/-- Series for the boundary comparison: after time 0, the first candle's low
touches the FVG top exactly (low = 10) and no candle goes strictly below it;
that first candle closes up off a long lower wick, giving a first-candle
rejection with follow-through. -/
def df10 : List Candle :=
  [⟨0, 9, 10, 8, (95 : ℚ) / 10⟩,
   ⟨1, (104 : ℚ) / 10, (106 : ℚ) / 10, 10, (105 : ℚ) / 10⟩,
   ⟨2, (105 : ℚ) / 10, (107 : ℚ) / 10, (103 : ℚ) / 10, (106 : ℚ) / 10⟩,
   ⟨3, (106 : ℚ) / 10, (108 : ℚ) / 10, (105 : ℚ) / 10, (107 : ℚ) / 10⟩]

/-- C10: the 2CR detector's mitigation boundary is non-strict (`low ≤ top`)
while `is_fvg_mitigated` is strict (`low < top`): on `df10`, a post-FVG
candle's low equals the top exactly and none goes strictly below, so
`find_2cr_pattern` treats the FVG as mitigated and returns a pattern while
`is_fvg_mitigated` returns false. -/
theorem two_cr_vs_mitigation_boundary :
    is_fvg_mitigated df10 fvg10 = false ∧
    (find_2cr_pattern df10 fvg10).isSome = true ∧
    (∃ c ∈ df10, fvg10.time < c.time ∧ c.low = fvg10.top) ∧
    (∀ c ∈ df10, fvg10.time < c.time → fvg10.top ≤ c.low) := by
  with_unfolding_all decide

/-- C7: when the time source's date is strictly past the cache's stored date,
the next `is_duplicate` call rotates to an empty store for the new day: the
queried fingerprint (whatever was added on the prior day) is reported as not
a duplicate, the alert store is cleared, and the stored date becomes the new
day. -/
theorem alert_cache_rollover (cache : AlertCache) (now : PyDateTime)
    (symbol timeframe fvg_type fvg_time : String)
    (h : cache.current_date < now.date) :
    (is_duplicate cache now symbol timeframe fvg_type fvg_time).2 = false ∧
    (is_duplicate cache now symbol timeframe fvg_type fvg_time).1.alerts = [] ∧
    (is_duplicate cache now symbol timeframe fvg_type fvg_time).1.current_date
      = now.date := by
  unfold is_duplicate _check_date_change
  rw [if_pos h]
  exact ⟨rfl, rfl, rfl⟩

/-- Witness for C7: a fingerprint cached on day 0 is no duplicate once the
time source reaches day 1. -/
theorem alert_cache_rollover_witness :
    (is_duplicate ⟨0, [("EURUSD|H1|bullish|t1", ⟨0, 0⟩)], ⟨0, 0⟩⟩ ⟨1, 86400⟩
        "EURUSD" "H1" "bullish" "t1").2 = false ∧
    (is_duplicate ⟨0, [("EURUSD|H1|bullish|t1", ⟨0, 0⟩)], ⟨0, 0⟩⟩ ⟨1, 86400⟩
        "EURUSD" "H1" "bullish" "t1").1.alerts = [] ∧
    (is_duplicate ⟨0, [("EURUSD|H1|bullish|t1", ⟨0, 0⟩)], ⟨0, 0⟩⟩ ⟨1, 86400⟩
        "EURUSD" "H1" "bullish" "t1").1.current_date = 1 :=
  alert_cache_rollover ⟨0, [("EURUSD|H1|bullish|t1", ⟨0, 0⟩)], ⟨0, 0⟩⟩ ⟨1, 86400⟩
    "EURUSD" "H1" "bullish" "t1" (by decide)

/-- Inserting a key makes the dictionary contain it. -/
lemma dictContains_dictInsert (alerts : List (String × PyDateTime))
    (key : String) (v : PyDateTime) :
    dictContains (dictInsert alerts key v) key = true := by
  unfold dictInsert
  split
  · rename_i h
    unfold dictContains at h ⊢
    rw [List.any_eq_true] at h ⊢
    obtain ⟨p, hp, hpk⟩ := h
    refine ⟨(key, v), List.mem_map.mpr ⟨p, hp, by simp [hpk]⟩, by simp⟩
  · unfold dictContains
    rw [List.any_eq_true]
    exact ⟨(key, v), List.mem_append_right _ (by simp), by simp⟩

/-- `add_alert` leaves the stored current date unchanged. -/
lemma add_alert_current_date (cache : AlertCache) (now : PyDateTime)
    (symbol timeframe fvg_type fvg_time : String) :
    (add_alert cache now symbol timeframe fvg_type fvg_time).current_date
      = cache.current_date := by
  unfold add_alert
  dsimp only
  split <;> rfl

/-- `add_alert` records exactly the fingerprint's dictionary insertion. -/
lemma add_alert_alerts (cache : AlertCache) (now : PyDateTime)
    (symbol timeframe fvg_type fvg_time : String) :
    (add_alert cache now symbol timeframe fvg_type fvg_time).alerts
      = dictInsert cache.alerts
          (_generate_alert_key symbol timeframe fvg_type fvg_time) now := by
  unfold add_alert
  dsimp only
  split <;> rfl

/-- C6: while the time source stays within the cache's current day, a
fingerprint never added is reported as not a duplicate, and after
`add_alert` with the identical tuple a subsequent `is_duplicate` reports a
duplicate — the same fingerprint is never sendable twice within one day. -/
theorem alert_cache_idempotent (cache : AlertCache) (n1 n2 n3 : PyDateTime)
    (symbol timeframe fvg_type fvg_time : String)
    (hfresh : dictContains cache.alerts
        (_generate_alert_key symbol timeframe fvg_type fvg_time) = false)
    (h1 : n1.date ≤ cache.current_date)
    (h3 : n3.date ≤ cache.current_date) :
    (is_duplicate cache n1 symbol timeframe fvg_type fvg_time).2 = false ∧
    (is_duplicate
        (add_alert (is_duplicate cache n1 symbol timeframe fvg_type fvg_time).1
          n2 symbol timeframe fvg_type fvg_time)
        n3 symbol timeframe fvg_type fvg_time).2 = true := by
  have hno1 : _check_date_change cache n1 = (cache, false) := by
    unfold _check_date_change
    rw [if_neg (by omega)]
  constructor
  · unfold is_duplicate
    rw [hno1]
    exact hfresh
  · have hdate2 : (add_alert cache n2 symbol timeframe fvg_type fvg_time).current_date
        = cache.current_date :=
      add_alert_current_date cache n2 symbol timeframe fvg_type fvg_time
    have hno3 : _check_date_change (add_alert cache n2 symbol timeframe fvg_type fvg_time) n3
        = (add_alert cache n2 symbol timeframe fvg_type fvg_time, false) := by
      unfold _check_date_change
      have hlt : ¬ (add_alert cache n2 symbol timeframe fvg_type fvg_time).current_date
          < n3.date := by
        rw [hdate2]; omega
      rw [if_neg hlt]
    unfold is_duplicate
    rw [hno1]
    dsimp only
    rw [hno3]
    dsimp only
    rw [add_alert_alerts cache n2 symbol timeframe fvg_type fvg_time]
    exact dictContains_dictInsert cache.alerts _ n2

/-- Witness for C6 on an empty day-0 cache and a concrete fingerprint. -/
theorem alert_cache_idempotent_witness :
    (is_duplicate ⟨0, [], ⟨0, 0⟩⟩ ⟨0, 10⟩ "EURUSD" "H1" "bullish" "t1").2 = false ∧
    (is_duplicate
        (add_alert (is_duplicate ⟨0, [], ⟨0, 0⟩⟩ ⟨0, 10⟩ "EURUSD" "H1" "bullish" "t1").1
          ⟨0, 20⟩ "EURUSD" "H1" "bullish" "t1")
        ⟨0, 30⟩ "EURUSD" "H1" "bullish" "t1").2 = true :=
  alert_cache_idempotent ⟨0, [], ⟨0, 0⟩⟩ ⟨0, 10⟩ ⟨0, 20⟩ ⟨0, 30⟩
    "EURUSD" "H1" "bullish" "t1" (by decide) (by decide) (by decide)

/-- Every name the deletion loop emits is the name of one of its files. -/
lemma manage_loop_subset (total : Nat) (fs : List CacheFile) (name : String)
    (h : name ∈ _manage_cache_size_loop total fs) : ∃ f ∈ fs, f.name = name := by
  induction fs generalizing total with
  | nil => simp [_manage_cache_size_loop] at h
  | cons f rest ih =>
    simp only [_manage_cache_size_loop] at h
    split at h
    · rcases List.mem_cons.mp h with h1 | h2
      · exact ⟨f, List.mem_cons_self f rest, h1.symm⟩
      · obtain ⟨g, hg, hgn⟩ := ih _ h2
        exact ⟨g, List.mem_cons_of_mem f hg, hgn⟩
    · obtain ⟨g, hg, hgn⟩ := ih _ h
      exact ⟨g, List.mem_cons_of_mem f hg, hgn⟩

/-- Day files used to exercise `_manage_cache_size`. -/
def cacheFileA : CacheFile := ⟨"fvg_alerts_20250101.json", 1, 60 * 1024 * 1024⟩

/-- A newer day file of the same size as `cacheFileA`. -/
def cacheFileB : CacheFile := ⟨"fvg_alerts_20250102.json", 2, 60 * 1024 * 1024⟩

/-- The active day's file in the `_manage_cache_size` scenario. -/
def cacheFileC : CacheFile := ⟨"fvg_alerts_20250103.json", 3, 1024⟩

/-- C8: the active day's file is never among the deleted names, but when the
old files total 120 MiB (over the 100 MiB ceiling) the code deletes the
NEWER file `cacheFileB` and keeps the OLDEST file `cacheFileA` — the loop
walks oldest-first accumulating sizes and unlinks only the files after the
running total passes the ceiling, the reverse of deleting oldest first. -/
theorem manage_cache_size_keeps_oldest :
    (∀ (cache_file : String) (files : List CacheFile),
        cache_file ∉ _manage_cache_size cache_file files) ∧
    _manage_cache_size cacheFileC.name [cacheFileC, cacheFileA, cacheFileB]
      = [cacheFileB.name] ∧
    cacheFileA.mtime < cacheFileB.mtime ∧
    MAX_CACHE_SIZE < cacheFileA.size + cacheFileB.size := by
  refine ⟨?_, by decide, by decide, by decide⟩
  intro cache_file files hmem
  obtain ⟨f, hf, hname⟩ := manage_loop_subset 0 _ cache_file hmem
  rw [List.mem_filter] at hf
  have hne := hf.2
  rw [hname] at hne
  simp at hne

/-- The backward swing scan returns nothing when no index of the scanned
range `(2, i]` qualifies. -/
lemma find_swing_from_eq_none (df : List Candle) :
    ∀ i, (∀ k, 2 < k → k ≤ i → ¬ swing_qualifies df k) →
      find_swing_from df i = none
  | 0, _ => rfl
  | 1, _ => rfl
  | 2, _ => rfl
  | (i + 3), h => by
    unfold find_swing_from
    rw [if_neg (h (i + 3) (by omega) (by omega))]
    exact find_swing_from_eq_none df (i + 2) (fun k hk1 hk2 => h k hk1 (by omega))

/-- The backward swing scan returns the pivot at `j` when `j` qualifies and
no index of the scanned range above `j` does: the first hit scanning down. -/
lemma find_swing_from_eq_some (df : List Candle) :
    ∀ i j, 2 < j → j ≤ i → swing_qualifies df j →
      (∀ k, j < k → k ≤ i → ¬ swing_qualifies df k) →
      find_swing_from df i = some (swingAt df j)
  | 0, _, hj, hji, _, _ => absurd hji (by omega)
  | 1, _, hj, hji, _, _ => absurd hji (by omega)
  | 2, _, hj, hji, _, _ => absurd hji (by omega)
  | (i + 3), j, hj, hji, hq, hnone => by
    by_cases hcur : swing_qualifies df (i + 3)
    · have hje : j = i + 3 := by
        by_contra hne
        exact hnone (i + 3) (by omega) (by omega) hcur
      subst hje
      unfold find_swing_from
      rw [if_pos hcur]
    · have hjle : j ≤ i + 2 := by
        by_contra hgt
        have hje : j = i + 3 := by omega
        exact hcur (hje ▸ hq)
      unfold find_swing_from
      rw [if_neg hcur]
      exact find_swing_from_eq_some df (i + 2) j hj hjle hq
        (fun k hk1 hk2 => hnone k hk1 (by omega))

/-- C5: `find_swing` scans indices from `len - 2` down to (excluding) 2 and
returns the first qualifying pivot it meets: series shorter than 4 bars give
none, a range with no qualifying pivot gives none, and when `j` qualifies
with no qualifying index above it in the range, the swing at `j` is returned
(so with qualifying pivots at `i < j` it returns `j`, never `i`). -/
theorem find_swing_spec (df : List Candle) :
    (df.length < 4 → find_swing df = none) ∧
    ((∀ k, 2 < k → k ≤ df.length - 2 → ¬ swing_qualifies df k) →
      find_swing df = none) ∧
    (∀ j, 2 < j → j ≤ df.length - 2 → swing_qualifies df j →
      (∀ k, j < k → k ≤ df.length - 2 → ¬ swing_qualifies df k) →
      find_swing df = some (swingAt df j)) := by
  refine ⟨?_, ?_, ?_⟩
  · intro h
    unfold find_swing
    rw [if_pos h]
  · intro h
    unfold find_swing
    split
    · rfl
    · exact find_swing_from_eq_none df _ h
  · intro j h1 h2 h3 h4
    unfold find_swing
    rw [if_neg (by omega)]
    exact find_swing_from_eq_some df _ j h1 h2 h3 h4

/-- Eight-bar series with qualifying swing highs at indices 3 and 5 and no
qualifying pivot above 5 in the scan range: lows rise monotonically (so no
swing low anywhere) and the highs spike at 3 and 5. -/
def df5 : List Candle :=
  [⟨0, 1, 10, 1, 1⟩, ⟨1, 1, 11, 2, 1⟩, ⟨2, 1, 10, 3, 1⟩, ⟨3, 1, 20, 4, 1⟩,
   ⟨4, 1, 10, 5, 1⟩, ⟨5, 1, 30, 6, 1⟩, ⟨6, 1, 10, 7, 1⟩, ⟨7, 1, 9, 8, 1⟩]

/-- Witness for C5: on `df5` the scan returns the nearer swing high at
index 5, not the one at index 3. -/
theorem find_swing_spec_witness :
    find_swing df5 = some (swingAt df5 5) ∧ swingAt df5 5 = ⟨"high", 5, 30, 5⟩ ∧
      swing_qualifies df5 3 :=
  ⟨(find_swing_spec df5).2.2 5 (by decide) (by decide) (by decide)
    (fun k hk1 hk2 => by
      have hlen : df5.length - 2 = 6 := rfl
      rw [hlen] at hk2
      have hk : k = 6 := by omega
      subst hk
      decide),
   by decide, by decide⟩

/-- One loop iteration yields nothing exactly when neither gap condition
holds at the triple. -/
lemma fvg_check_eq_none_iff (closed : Int → Bool) (min_size : ℚ)
    (df : List Candle) (i : Nat) :
    fvg_check closed min_size df i = none ↔
      ¬ bearish_gap_ok min_size df i ∧ ¬ bullish_gap_ok min_size df i := by
  unfold fvg_check
  dsimp only
  split_ifs with h1 h2
  · simp [h1]
  · simp [h1, h2]
  · simp [h1, h2]

/-- One loop iteration yields an FVG only by firing the bearish branch or
else the bullish branch, with exactly the record the source builds. -/
lemma fvg_check_eq_some (closed : Int → Bool) (min_size : ℚ)
    (df : List Candle) (i : Nat) (fvg : FVG)
    (h : fvg_check closed min_size df i = some fvg) :
    (bearish_gap_ok min_size df i ∧
      fvg = ⟨"bearish", (iloc df i).low, (iloc df (i + 2)).high,
        (iloc df i).low - (iloc df (i + 2)).high, (iloc df (i + 2)).time,
        (tripleStatus closed df i).candle1.closed &&
          (tripleStatus closed df i).candle2.closed &&
          (tripleStatus closed df i).candle3.closed,
        tripleStatus closed df i⟩) ∨
    (¬ bearish_gap_ok min_size df i ∧ bullish_gap_ok min_size df i ∧
      fvg = ⟨"bullish", (iloc df (i + 2)).low, (iloc df i).high,
        (iloc df (i + 2)).low - (iloc df i).high, (iloc df (i + 2)).time,
        (tripleStatus closed df i).candle1.closed &&
          (tripleStatus closed df i).candle2.closed &&
          (tripleStatus closed df i).candle3.closed,
        tripleStatus closed df i⟩) := by
  unfold fvg_check at h
  dsimp only at h
  split_ifs at h with h1 h2
  · exact Or.inl ⟨h1, (Option.some.inj h).symm⟩
  · exact Or.inr ⟨h1, h2, (Option.some.inj h).symm⟩

/-- The backward FVG scan is empty-handed exactly when every index of the
scanned range `(swing_index, i]` fails both gap checks. -/
lemma find_fvg_from_eq_none_iff (closed : Int → Bool) (min_size : ℚ)
    (df : List Candle) (swing_index : Nat) :
    ∀ i, (find_fvg_from closed min_size df swing_index i = none ↔
      ∀ k, swing_index < k → k ≤ i → fvg_check closed min_size df k = none)
  | 0 => by
    constructor
    · intro _ k hk1 hk2
      exact absurd hk1 (by omega)
    · intro _
      rfl
  | (i + 1) => by
    unfold find_fvg_from
    by_cases hsi : i + 1 ≤ swing_index
    · rw [if_pos hsi]
      constructor
      · intro _ k hk1 hk2
        exact absurd hk1 (by omega)
      · intro _
        rfl
    · rw [if_neg hsi]
      cases hchk : fvg_check closed min_size df (i + 1) with
      | some fvg =>
        simp only [hchk]
        constructor
        · intro h
          exact absurd h (by simp)
        · intro h
          have := h (i + 1) (by omega) (le_refl _)
          rw [hchk] at this
          exact absurd this (by simp)
      | none =>
        simp only [hchk]
        rw [find_fvg_from_eq_none_iff closed min_size df swing_index i]
        constructor
        · intro h k hk1 hk2
          by_cases hk : k = i + 1
          · subst hk
            exact hchk
          · exact h k hk1 (by omega)
        · intro h k hk1 hk2
          exact h k hk1 (by omega)

/-- When the backward FVG scan returns a record, some index of the scanned
range produced it by its own iteration check. -/
lemma find_fvg_from_eq_some (closed : Int → Bool) (min_size : ℚ)
    (df : List Candle) (swing_index : Nat) :
    ∀ i fvg, find_fvg_from closed min_size df swing_index i = some fvg →
      ∃ k, swing_index < k ∧ k ≤ i ∧ fvg_check closed min_size df k = some fvg
  | 0, fvg, h => absurd h (by simp [find_fvg_from])
  | (i + 1), fvg, h => by
    unfold find_fvg_from at h
    by_cases hsi : i + 1 ≤ swing_index
    · rw [if_pos hsi] at h
      exact absurd h (by simp)
    · rw [if_neg hsi] at h
      cases hchk : fvg_check closed min_size df (i + 1) with
      | some fvg2 =>
        rw [hchk] at h
        refine ⟨i + 1, by omega, le_refl _, ?_⟩
        rw [hchk]
        exact h
      | none =>
        rw [hchk] at h
        obtain ⟨k, hk1, hk2, hk3⟩ :=
          find_fvg_from_eq_some closed min_size df swing_index i fvg h
        exact ⟨k, hk1, by omega, hk3⟩

/-- C1: `find_fvg_before_swing` returns nothing exactly when no triple in the
scan range `(swing_index, len - 3]` satisfies a gap condition (gap present
and at least `min_size`, threshold inclusive); when it returns an FVG, some
triple in the range produced it, bearish with `high(c3) < low(c1)` or
bullish with `low(c3) > high(c1)`, gap at least `min_size`, and the record's
size field equal to the gap. -/
theorem find_fvg_gap_spec (closed : Int → Bool) (min_size : ℚ)
    (df : List Candle) (swing_index : Nat) :
    (find_fvg_before_swing closed min_size df swing_index = none ↔
      ∀ i, swing_index < i → i ≤ df.length - 3 →
        ¬ bearish_gap_ok min_size df i ∧ ¬ bullish_gap_ok min_size df i) ∧
    (∀ fvg, find_fvg_before_swing closed min_size df swing_index = some fvg →
      ∃ i, swing_index < i ∧ i ≤ df.length - 3 ∧
        ((fvg.type = "bearish" ∧ bearish_gap_ok min_size df i ∧
          fvg.top = (iloc df i).low ∧ fvg.bottom = (iloc df (i + 2)).high ∧
          fvg.size = (iloc df i).low - (iloc df (i + 2)).high) ∨
         (fvg.type = "bullish" ∧ bullish_gap_ok min_size df i ∧
          fvg.top = (iloc df (i + 2)).low ∧ fvg.bottom = (iloc df i).high ∧
          fvg.size = (iloc df (i + 2)).low - (iloc df i).high))) := by
  constructor
  · unfold find_fvg_before_swing
    rw [find_fvg_from_eq_none_iff]
    constructor
    · intro h i hi1 hi2
      exact (fvg_check_eq_none_iff closed min_size df i).mp (h i hi1 hi2)
    · intro h k hk1 hk2
      exact (fvg_check_eq_none_iff closed min_size df k).mpr (h k hk1 hk2)
  · intro fvg h
    obtain ⟨k, hk1, hk2, hk3⟩ :=
      find_fvg_from_eq_some closed min_size df swing_index _ fvg h
    rcases fvg_check_eq_some closed min_size df k fvg hk3 with
      ⟨hb, hrec⟩ | ⟨hnb, hb, hrec⟩
    · exact ⟨k, hk1, hk2,
        Or.inl ⟨by rw [hrec], hb, by rw [hrec], by rw [hrec], by rw [hrec]⟩⟩
    · exact ⟨k, hk1, hk2,
        Or.inr ⟨by rw [hrec], hb, by rw [hrec], by rw [hrec], by rw [hrec]⟩⟩

/-- C2 (amended): the `time` field of an FVG returned by
`find_fvg_before_swing` is the time of the THIRD candle (`c3`) of the
producing triple — under the open-time convention of the rates feed this is
the middle candle's close time, but it is not the middle candle's own
`time` value. -/
theorem fvg_time_is_third_candle (closed : Int → Bool) (min_size : ℚ)
    (df : List Candle) (swing_index : Nat) (fvg : FVG)
    (h : find_fvg_before_swing closed min_size df swing_index = some fvg) :
    ∃ i, swing_index < i ∧ i ≤ df.length - 3 ∧
      (bearish_gap_ok min_size df i ∨ bullish_gap_ok min_size df i) ∧
      fvg.time = (iloc df (i + 2)).time := by
  obtain ⟨k, hk1, hk2, hk3⟩ :=
    find_fvg_from_eq_some closed min_size df swing_index _ fvg h
  rcases fvg_check_eq_some closed min_size df k fvg hk3 with
    ⟨hb, hrec⟩ | ⟨hnb, hb, hrec⟩
  · exact ⟨k, hk1, hk2, Or.inl hb, by rw [hrec]⟩
  · exact ⟨k, hk1, hk2, Or.inr hb, by rw [hrec]⟩

/-- Five-bar series whose triple at indices (2,3,4) forms a bullish gap of
exactly the minimum size 10: `high(c1) = 100`, `low(c3) = 110`. -/
def dfC1 : List Candle :=
  [⟨0, 1, 50, 40, 1⟩, ⟨1, 1, 100, 90, 1⟩, ⟨2, 1, 100, 90, 1⟩,
   ⟨3, 1, 120, 105, 1⟩, ⟨4, 1, 130, 110, 1⟩]

/-- The FVG record `find_fvg_before_swing` builds on `dfC1` with minimum
size 10 and swing index 0, all candles closed. -/
def fvgC1 : FVG :=
  ⟨"bullish", 110, 100, 10, 4, true, ⟨⟨2, true⟩, ⟨3, true⟩, ⟨4, true⟩⟩⟩

/-- Witness for C1: on `dfC1` the returned bullish FVG comes from the triple
at index 2 with `size` exactly the minimum size. -/
theorem find_fvg_gap_spec_witness :
    ∃ i, 0 < i ∧ i ≤ dfC1.length - 3 ∧
      ((fvgC1.type = "bearish" ∧ bearish_gap_ok 10 dfC1 i ∧
        fvgC1.top = (iloc dfC1 i).low ∧ fvgC1.bottom = (iloc dfC1 (i + 2)).high ∧
        fvgC1.size = (iloc dfC1 i).low - (iloc dfC1 (i + 2)).high) ∨
       (fvgC1.type = "bullish" ∧ bullish_gap_ok 10 dfC1 i ∧
        fvgC1.top = (iloc dfC1 (i + 2)).low ∧ fvgC1.bottom = (iloc dfC1 i).high ∧
        fvgC1.size = (iloc dfC1 (i + 2)).low - (iloc dfC1 i).high)) :=
  (find_fvg_gap_spec (fun _ => true) 10 dfC1 0).2 fvgC1 (by with_unfolding_all decide)

/-- Counterexample for C2 as stated: on `dfC1` the returned FVG's `time` is
4, the time of the third candle of the producing triple (2,3,4), and differs
from the middle candle's time 3. -/
theorem fvg_time_not_middle_candle :
    find_fvg_before_swing (fun _ => true) 10 dfC1 0 = some fvgC1 ∧
    fvgC1.time = (iloc dfC1 4).time ∧
    ¬ fvgC1.time = (iloc dfC1 3).time := by
  with_unfolding_all decide

/-- Witness for the amended C2 on the concrete series `dfC1`. -/
theorem fvg_time_is_third_candle_witness :
    ∃ i, 0 < i ∧ i ≤ dfC1.length - 3 ∧
      (bearish_gap_ok 10 dfC1 i ∨ bullish_gap_ok 10 dfC1 i) ∧
      fvgC1.time = (iloc dfC1 (i + 2)).time :=
  fvg_time_is_third_candle (fun _ => true) 10 dfC1 0 fvgC1 (by with_unfolding_all decide)
